import Mathlib

/-!
Verification of the GitHub connection / repository-catalog core of the
pilot application against its natural-language specification.

The definitions below are a shallow embedding of the TypeScript source:

* `src/lib/github.ts` — `GitHubService` (OAuth token exchange, token
  validation, repository listing with the validate-before-fetch gate);
* `src/app/(tabs)/explore.tsx` — the `filteredIssues` computation (state,
  label and text filtering of an issue list) and the markdown splitting
  loop of `renderMarkdownContent`;
* `src/unnamed/part_004` — `ProjectService` (project creation with the
  duplicate guard, project lookup, project-existence check), together
  with the row store of `src/database/projects.sql` whose unique index
  `projects_user_repo_unique_idx` enforces uniqueness of
  `(user_id, github_repo_id)`.

Effectful TypeScript (fetch, the supabase row store) is embedded by
passing the outcome of each external interaction as an explicit argument,
so every definition is an executable Lean function of the program inputs
and the observed environment behaviour.
-/

namespace Pilot

/-- JavaScript truthiness of an optional string value: `undefined`, `null`
and the empty string are falsy, every other string is truthy. Used for
`process.env` variables and fields of parsed JSON bodies. -/
def truthy : Option String → Bool
  | none => false
  | some s => !(s == "")

/-- The fields of the token endpoint's parsed JSON body that
`GitHubService.exchangeCodeForToken` (src/lib/github.ts) reads. A `none`
field is one absent from the JSON object. -/
structure TokenBody where
  error : Option String
  error_description : Option String
  access_token : Option String
  token_type : Option String
  scope : Option String
deriving DecidableEq

/-- `fetch`'s `Response.ok`: the HTTP status is in the 2xx range. -/
def statusOk (status : Nat) : Bool := 200 ≤ status && status < 300

/-- A token-endpoint HTTP response as observed through `fetch`: status,
status text, the raw body text, and the result of `JSON.parse` on that
text (`none` when the body is not parseable JSON). -/
structure TokenResponse where
  status : Nat
  statusText : String
  text : String
  parsed : Option TokenBody
deriving DecidableEq

/-- `Response.ok` for a token-endpoint response. -/
def TokenResponse.ok (r : TokenResponse) : Bool := statusOk r.status

/-- The outcome of one `fetch` call: the promise rejects with a network
error, or an HTTP response of type `α` arrives. -/
inductive FetchOutcome (α : Type) where
  | failure (msg : String)
  | success (resp : α)
deriving DecidableEq

/-- The error taxonomy of the specification (section 7). Each constructor
corresponds to one class of throw site in the source; the source throws
plain `Error` values distinguished by message, and the constructor records
which class of site threw together with that message. `NetworkError`
stands for an exception thrown by `fetch` itself, which the source
propagates unchanged. -/
inductive ServiceError where
  | ConfigurationError (msg : String)
  | ProviderError (msg : String)
  | ProtocolError (msg : String)
  | PersistenceError (msg : String)
  | ExpiredConnection (msg : String)
  | DuplicateProject (msg : String)
  | NetworkError (msg : String)
deriving DecidableEq

/-- Rendering of the parsed token body used in the "No access token
received" message; stands for `JSON.stringify(tokens)`. No claim inspects
this string. -/
def stringifyTokens (b : TokenBody) : String :=
  let fields := [("error", b.error), ("error_description", b.error_description),
    ("access_token", b.access_token), ("token_type", b.token_type), ("scope", b.scope)]
  let present := fields.filterMap (fun p => p.2.map (fun v => "\x22" ++ p.1 ++ "\x22:\x22" ++ v ++ "\x22"))
  "\x7b" ++ String.intercalate "," present ++ "\x7d"

/-- `GitHubService.exchangeCodeForToken` (src/lib/github.ts, lines 71-124)
as a function of the configured credentials and the token-endpoint fetch
outcome. The `code` argument of the source only feeds the request body,
never the control flow, so it does not appear. The source's surrounding
try/catch logs and rethrows, so it does not change the result. -/
def exchangeCodeForToken (clientId clientSecret : Option String)
    (o : FetchOutcome TokenResponse) : Except ServiceError TokenBody :=
  if !(truthy clientId) || !(truthy clientSecret) then
    .error (.ConfigurationError "GitHub OAuth credentials are not configured")
  else
    match o with
    | .failure msg => .error (.NetworkError msg)
    | .success resp =>
      if !resp.ok then
        .error (.ProtocolError ("Failed to exchange code for token: " ++ toString resp.status
          ++ " " ++ resp.statusText ++ ". Response: " ++ resp.text))
      else
        match resp.parsed with
        | none => .error (.ProtocolError ("Failed to parse GitHub response: " ++ resp.text))
        | some tokens =>
          if truthy tokens.error then
            .error (.ProviderError ("GitHub OAuth error: " ++
              (if truthy tokens.error_description then tokens.error_description.getD ""
               else tokens.error.getD "")))
          else if !(truthy tokens.access_token) then
            .error (.ProtocolError ("No access token received. Response: " ++ stringifyTokens tokens))
          else
            .ok tokens

/-- `GitHubService.validateToken` (src/lib/github.ts, lines 222-235): a
probe `GET /user` with the token; the `try` returns `response.ok`, the
`catch` coerces any thrown network error to `false`. The response body is
never read, so the response is represented by its status. -/
def validateToken (o : FetchOutcome Nat) : Bool :=
  match o with
  | .failure _ => false
  | .success status => statusOk status

/-- A repository as listed by the provider (spec section 3); the embedded
operations return repository lists verbatim and never read these fields.
The TypeScript field `private` is rendered `private_repo` because
`private` is a Lean keyword. -/
structure GitHubRepository where
  id : Int
  name : String
  full_name : String
  html_url : String
  private_repo : Bool
  language : Option String
  description : Option String
  stargazers_count : Int
  forks_count : Int
  updated_at : Option String
deriving DecidableEq

/-- The outcome of the repository-listing `fetch`: a network failure, or a
response with status, status text and parsed body. -/
inductive ReposFetch where
  | failure (msg : String)
  | response (status : Nat) (statusText : String) (body : List GitHubRepository)
deriving DecidableEq

/-- `GitHubService.getUserRepositories` (src/lib/github.ts, lines 142-163):
single paginated GET; throws on a non-success status, otherwise returns
the response body; a network failure propagates. -/
def getUserRepositories (o : ReposFetch) : Except ServiceError (List GitHubRepository) :=
  match o with
  | .failure msg => .error (.NetworkError msg)
  | .response status statusText body =>
    if !(statusOk status) then
      .error (.ProtocolError ("Failed to fetch repositories: " ++ statusText))
    else .ok body

/-- `GitHubService.getRepositoriesWithCache` (src/lib/github.ts, lines
237-249): validate the connection's token, fail with the expired-
connection error when invalid, otherwise fetch the repositories. `probe`
is the outcome of the validation request and `repoFetch` the outcome of
the repository-listing request. -/
def getRepositoriesWithCache (probe : FetchOutcome Nat) (repoFetch : ReposFetch) :
    Except ServiceError (List GitHubRepository) :=
  if !(validateToken probe) then
    .error (.ExpiredConnection "GitHub access token has expired. Please reconnect your account.")
  else getUserRepositories repoFetch

/-- JavaScript `String.prototype.toLowerCase`, character-wise lowering. -/
def toLowerCase (s : String) : String := s.map Char.toLower

/-- A JavaScript whitespace character, the class `\s` and the characters
removed by `String.prototype.trim` (the common members; the exotic
Unicode space separators do not occur in the embedded inputs). -/
def isJsWhitespace (c : Char) : Bool :=
  c == ' ' || c == '\t' || c == '\n' || c == '\r' ||
  c == '\x0b' || c == '\x0c' || c == ' '

/-- JavaScript `String.prototype.trim` on a character list. -/
def trimJs (l : List Char) : List Char :=
  ((l.dropWhile isJsWhitespace).reverse.dropWhile isJsWhitespace).reverse

/-- JavaScript `String.prototype.trim`. -/
def trimStr (s : String) : String := String.mk (trimJs s.toList)

/-- JavaScript `String.prototype.includes`: substring containment (an
empty pattern is contained in every string, as in JavaScript). -/
def jsIncludes (s pat : String) : Bool := decide (pat.toList <:+: s.toList)

/-- An issue label as read by the filtering code: name and color
(`label.name`, `label.color` in explore.tsx). -/
structure GitHubLabel where
  name : String
  color : String
deriving DecidableEq

/-- The author object of an issue as read by the filtering code
(`issue.user.login`). -/
structure GitHubIssueUser where
  login : String
deriving DecidableEq

/-- A GitHub issue, with the fields the embedded code reads
(`filteredIssues` in explore.tsx and spec section 3): identity, title,
optional markdown body, state string, labels and author. -/
structure GitHubIssue where
  id : Int
  number : Int
  title : String
  body : Option String
  state : String
  labels : List GitHubLabel
  user : GitHubIssueUser
deriving DecidableEq

/-- The state-filter pass of `filteredIssues` (explore.tsx, lines
953-957). `filter` is the `FilterType` string, one of "all", "open",
"closed"; any other value behaves like "all", exactly as the source's
if/else chain does. -/
def stateFilter (filter : String) (issues : List GitHubIssue) : List GitHubIssue :=
  if filter == "open" then issues.filter (fun i => i.state == "open")
  else if filter == "closed" then issues.filter (fun i => i.state == "closed")
  else issues

/-- The label-filter pass of `filteredIssues` (explore.tsx, lines
959-963). `selectedLabels` models the `Set<string>` of selected label
names; an empty selection filters nothing. -/
def labelFilter (selectedLabels : List String) (issues : List GitHubIssue) : List GitHubIssue :=
  if selectedLabels.length > 0 then
    issues.filter (fun i => i.labels.any (fun l => selectedLabels.contains l.name))
  else issues

/-- The per-issue predicate of the text-search pass (explore.tsx, lines
967-972), applied with the lowercased query: match on title, body (an
absent body never matches, as `issue.body?.` short-circuits), author
login, or any label name. -/
def issueMatchesQuery (query : String) (i : GitHubIssue) : Bool :=
  jsIncludes (toLowerCase i.title) query ||
  (match i.body with
   | some b => jsIncludes (toLowerCase b) query
   | none => false) ||
  jsIncludes (toLowerCase i.user.login) query ||
  i.labels.any (fun l => jsIncludes (toLowerCase l.name) query)

/-- The text-search pass of `filteredIssues` (explore.tsx, lines
965-973): skipped when the query is blank after trimming, otherwise the
untrimmed query is lowercased and matched as a substring. -/
def textFilter (searchQuery : String) (issues : List GitHubIssue) : List GitHubIssue :=
  if trimStr searchQuery != "" then
    issues.filter (issueMatchesQuery (toLowerCase searchQuery))
  else issues

/-- The `filteredIssues` memo of explore.tsx (lines 950-976): the three
passes applied sequentially, state first, then labels, then text. -/
def filteredIssues (filter : String) (selectedLabels : List String)
    (searchQuery : String) (issues : List GitHubIssue) : List GitHubIssue :=
  textFilter searchQuery (labelFilter selectedLabels (stateFilter filter issues))

/-- The state pass as a total per-issue predicate (true when the pass is
inactive). -/
def statePred (filter : String) (i : GitHubIssue) : Bool :=
  if filter == "open" then i.state == "open"
  else if filter == "closed" then i.state == "closed"
  else true

/-- The label pass as a total per-issue predicate. -/
def labelPred (selectedLabels : List String) (i : GitHubIssue) : Bool :=
  if selectedLabels.length > 0 then
    i.labels.any (fun l => selectedLabels.contains l.name)
  else true

/-- The text pass as a total per-issue predicate. -/
def textPred (searchQuery : String) (i : GitHubIssue) : Bool :=
  if trimStr searchQuery != "" then issueMatchesQuery (toLowerCase searchQuery) i
  else true

lemma stateFilter_eq_filter (filter : String) (issues : List GitHubIssue) :
    stateFilter filter issues = issues.filter (statePred filter) := by
  unfold stateFilter statePred
  split
  · rfl
  · split
    · rfl
    · simp

lemma labelFilter_eq_filter (selectedLabels : List String) (issues : List GitHubIssue) :
    labelFilter selectedLabels issues = issues.filter (labelPred selectedLabels) := by
  unfold labelFilter labelPred
  split
  · rfl
  · simp

lemma textFilter_eq_filter (searchQuery : String) (issues : List GitHubIssue) :
    textFilter searchQuery issues = issues.filter (textPred searchQuery) := by
  unfold textFilter textPred
  split
  · rfl
  · simp

lemma truthy_none : truthy none = false := rfl

lemma filter_comm (p q : α → Bool) (l : List α) :
    (l.filter p).filter q = (l.filter q).filter p := by
  induction l with
  | nil => rfl
  | cons a l ih =>
    by_cases hp : p a = true <;> by_cases hq : q a = true <;>
      simp [List.filter_cons, hp, hq, ih]

/-- Split a character list at the first occurrence of `c`: the prefix
before it and the suffix after it; `none` when `c` does not occur. -/
def takeUntil (c : Char) : List Char → Option (List Char × List Char)
  | [] => none
  | a :: rest =>
    if a == c then some ([], rest)
    else
      match takeUntil c rest with
      | some (pre, post) => some (a :: pre, post)
      | none => none

/-- Match the media reference pattern (the regex
/!\[([^\]]*)\]\(([^)]+)\)/ of explore.tsx line 1854) at the head of the
list: two literal characters, then the alt text up to the first `]`
(possibly empty), a literal `(`, and a nonempty url up to the first `)`.
Returns the alt text, the url and the total number of characters the
match consumes. -/
def matchMediaAt : List Char → Option (List Char × List Char × Nat)
  | '!' :: '[' :: rest =>
    match takeUntil ']' rest with
    | some (alt, rest1) =>
      match rest1 with
      | '(' :: rest2 =>
        (match takeUntil ')' rest2 with
         | some (url, _) =>
           if url.isEmpty then none
           else some (alt, url, alt.length + url.length + 5)
         | none => none)
      | _ => none
    | _ => none
  | _ => none

/-- The segment kind of the parts array of `renderMarkdownContent`
(explore.tsx): plain text or a media reference. -/
inductive SegmentKind where
  | text
  | media
deriving DecidableEq

/-- One element of the parts array of `renderMarkdownContent`: for text,
`content` is the body slice; for media, `content` is the url and `alt`
the alt text. -/
structure Segment where
  kind : SegmentKind
  content : String
  alt : Option String
deriving DecidableEq

/-- Flush the pending text slice as the loop of `renderMarkdownContent`
does: push a text part only when the slice is nonblank after trimming,
and push the untrimmed slice. -/
def flushText (pending : List Char) : List Segment :=
  if (trimJs pending).isEmpty then []
  else [⟨.text, String.mk pending, none⟩]

/-- The scanning while-loop of `renderMarkdownContent` (explore.tsx,
lines 1859-1882): repeatedly find the next media match, flushing the
text accumulated since the previous match before it, and flush the tail
after the last match. `fuel` bounds the recursion; every step consumes
at least one character, so any fuel of at least the list length computes
the loop exactly, and exhausted fuel conservatively flushes the rest as
text. -/
def scanParts : Nat → List Char → List Char → List Segment
  | 0, pending, l => flushText (pending ++ l)
  | fuel + 1, pending, l =>
    match matchMediaAt l with
    | some (alt, url, consumed) =>
      flushText pending ++ [⟨.media, String.mk url, some (String.mk alt)⟩] ++
        scanParts fuel [] (l.drop consumed)
    | none =>
      match l with
      | [] => flushText pending
      | c :: rest => scanParts fuel (pending ++ [c]) rest

/-- The parts computation of `renderMarkdownContent` for a truthy body,
including the final fallback (explore.tsx, lines 1884-1886): when the
scan produced no parts at all, a single text part carrying the whole
body is used. -/
def renderParts (body : String) : List Segment :=
  let parts := scanParts (body.toList.length + 1) [] body.toList
  if parts.isEmpty then [⟨.text, body, none⟩] else parts

/-- The segment computation of `renderMarkdownContent` including its
falsy-body guard (explore.tsx, lines 1845-1852): an absent or empty body
yields no segments (the caller renders a placeholder). -/
def splitBodyParts (body : Option String) : List Segment :=
  match body with
  | none => []
  | some s => if s == "" then [] else renderParts s

/-- One global regex-replace pass: scan left to right; where the matcher
matches at the current position (returning the replacement and the
number of characters consumed, at least one), emit the replacement and
resume after the match; otherwise copy one character. `fuel` of at least
the list length computes the pass exactly. -/
def replaceScan (m : List Char → Option (List Char × Nat)) : Nat → List Char → List Char
  | 0, l => l
  | fuel + 1, l =>
    match l with
    | [] => []
    | c :: rest =>
      match m (c :: rest) with
      | some (rep, consumed) =>
        if consumed == 0 then c :: replaceScan m fuel rest
        else rep ++ replaceScan m fuel (rest.drop (consumed - 1))
      | none => c :: replaceScan m fuel rest

/-- Matcher for the header pass /#{1,6}\s/ (explore.tsx, line 1904): a
maximal run of one to six `#` characters followed by a whitespace
character; the match removes the run and that one whitespace character.
A run of more than six `#` fails here and the scan succeeds instead at
the later position where six remain, matching backtracking. -/
def matchHeader (l : List Char) : Option (List Char × Nat) :=
  let run := (l.takeWhile (fun c => c == '#')).length
  if 1 ≤ run && run ≤ 6 then
    match l.drop run with
    | c :: _ => if isJsWhitespace c then some ([], run + 1) else none
    | [] => none
  else none

/-- Matcher for the bold pass /\*\*([^*]+)\*\*/ (explore.tsx, line 1905):
replaced by the inner text. -/
def matchBold : List Char → Option (List Char × Nat)
  | '*' :: '*' :: rest =>
    match takeUntil '*' rest with
    | some (inner, rest1) =>
      if inner.isEmpty then none
      else
        match rest1 with
        | '*' :: _ => some (inner, inner.length + 4)
        | _ => none
    | none => none
  | _ => none

/-- Matcher for the italic pass /\*([^*]+)\*/ (explore.tsx, line 1906):
replaced by the inner text. -/
def matchItalic : List Char → Option (List Char × Nat)
  | '*' :: rest =>
    match takeUntil '*' rest with
    | some (inner, _) =>
      if inner.isEmpty then none else some (inner, inner.length + 2)
    | none => none
  | _ => none

/-- The backquote character, code point 96. -/
def backquote : Char := Char.ofNat 96

/-- Matcher for the inline-code pass (explore.tsx, line 1907): a
backquote-delimited nonempty span, replaced by the inner text. -/
def matchInlineCode : List Char → Option (List Char × Nat)
  | c :: rest =>
    if c == backquote then
      match takeUntil backquote rest with
      | some (inner, _) =>
        if inner.isEmpty then none else some (inner, inner.length + 2)
      | none => none
    else none
  | [] => none

/-- Matcher for the link pass /\[([^\]]+)\]\([^)]+\)/ (explore.tsx, line
1908): replaced by the link label. -/
def matchLink : List Char → Option (List Char × Nat)
  | '[' :: rest =>
    match takeUntil ']' rest with
    | some (label, rest1) =>
      if label.isEmpty then none
      else
        match rest1 with
        | '(' :: rest2 =>
          (match takeUntil ')' rest2 with
           | some (url, _) =>
             if url.isEmpty then none
             else some (label, label.length + url.length + 4)
           | none => none)
        | _ => none
    | none => none
  | _ => none

/-- The markdown stripping `renderMarkdownContent` applies to each text
part before rendering it (explore.tsx, lines 1902-1909): the header,
bold, italic, inline-code and link replace passes in order, then trim. -/
def cleanText (s : String) : String :=
  let l0 := s.toList
  let l1 := replaceScan matchHeader (l0.length + 1) l0
  let l2 := replaceScan matchBold (l1.length + 1) l1
  let l3 := replaceScan matchItalic (l2.length + 1) l2
  let l4 := replaceScan matchInlineCode (l3.length + 1) l3
  let l5 := replaceScan matchLink (l4.length + 1) l4
  String.mk (trimJs l5)

/-- The specification's `splitBodyIntoSegments`: the segment computation
of `renderMarkdownContent` followed by the markdown stripping the same
function applies to each text segment when rendering it. -/
def splitBodyIntoSegments (body : Option String) : List Segment :=
  (splitBodyParts body).map (fun p =>
    match p.kind with
    | .text => { p with content := cleanText p.content }
    | .media => p)

/-- The `CreateProjectData` payload (src/unnamed/part_000): the insert
data for a project row; optional TypeScript fields are `Option`. -/
structure CreateProjectData where
  name : String
  description : Option String
  github_repo_id : Int
  github_repo_name : String
  github_repo_full_name : String
  github_repo_url : String
  github_repo_private : Bool
  github_repo_language : Option String
  github_repo_description : Option String
  github_repo_stars : Int
  github_repo_forks : Int
  github_repo_updated_at : Option String
deriving DecidableEq

/-- A row of the projects table (src/unnamed/part_000 `Project`,
src/database/projects.sql): the payload plus the database-generated id
and timestamps. -/
structure Project where
  id : String
  user_id : String
  name : String
  description : Option String
  github_repo_id : Int
  github_repo_name : String
  github_repo_full_name : String
  github_repo_url : String
  github_repo_private : Bool
  github_repo_language : Option String
  github_repo_description : Option String
  github_repo_stars : Int
  github_repo_forks : Int
  github_repo_updated_at : Option String
  created_at : String
  updated_at : String
deriving DecidableEq

/-- The result of a supabase single-row operation (`.single()`): a row,
or a Postgres/PostgREST error identified by its code. Code "PGRST116"
is the no-rows condition; any other code is a genuine storage failure. -/
inductive DbSingleResult (α : Type) where
  | ok (a : α)
  | error (code : String) (msg : String)
deriving DecidableEq

/-- The insert of the projects row store, honoring the unique index
`projects_user_repo_unique_idx` on `(user_id, github_repo_id)` declared
in src/database/projects.sql: inserting a second row for a pair already
present fails with Postgres error code 23505 and leaves the store
unchanged. `genId` and `genNow` supply the database-generated id and
timestamp; `fault` injects an unrelated storage failure when present. -/
def dbInsertProject (store : List Project) (userId : String) (pd : CreateProjectData)
    (genId genNow : String) (fault : Option (String × String)) :
    DbSingleResult Project × List Project :=
  match fault with
  | some (code, msg) => (.error code msg, store)
  | none =>
    if store.any (fun p => p.user_id == userId && p.github_repo_id == pd.github_repo_id) then
      (.error "23505" "duplicate key value violates unique constraint", store)
    else
      let row : Project :=
        { id := genId
          user_id := userId
          name := pd.name
          description := pd.description
          github_repo_id := pd.github_repo_id
          github_repo_name := pd.github_repo_name
          github_repo_full_name := pd.github_repo_full_name
          github_repo_url := pd.github_repo_url
          github_repo_private := pd.github_repo_private
          github_repo_language := pd.github_repo_language
          github_repo_description := pd.github_repo_description
          github_repo_stars := pd.github_repo_stars
          github_repo_forks := pd.github_repo_forks
          github_repo_updated_at := pd.github_repo_updated_at
          created_at := genNow
          updated_at := genNow }
      (.ok row, store ++ [row])

/-- `ProjectService.createProject` (src/unnamed/part_004, lines 41-65):
insert the row; on error, code 23505 becomes the duplicate-project
message and any other error the generic creation failure; on success the
inserted row is returned. The pair's second component is the store after
the call. -/
def createProject (store : List Project) (userId : String) (pd : CreateProjectData)
    (genId genNow : String) (fault : Option (String × String)) :
    Except ServiceError Project × List Project :=
  match dbInsertProject store userId pd genId genNow fault with
  | (.error code _, store') =>
    if code == "23505" then
      (.error (.DuplicateProject "A project already exists for this repository"), store')
    else
      (.error (.PersistenceError "Failed to create project"), store')
  | (.ok row, store') => (.ok row, store')

/-- The single-row select behind `hasProjectForRepo`: the first stored
row matching `(user_id, github_repo_id)`, the PGRST116 error when none
matches, or an injected genuine storage failure. -/
def dbSelectProjectByRepo (store : List Project) (userId : String) (repoId : Int)
    (fault : Option (String × String)) : DbSingleResult Project :=
  match fault with
  | some (code, msg) => .error code msg
  | none =>
    match store.find? (fun p => p.user_id == userId && p.github_repo_id == repoId) with
    | some p => .ok p
    | none => .error "PGRST116" "JSON object requested, multiple (or no) rows returned"

/-- `ProjectService.hasProjectForRepo` (src/unnamed/part_004, lines
98-112), as a function of the select result. The result type permits
raising, but the source never does: a non-PGRST116 error is logged and
returned as `false` (the first branch below), the PGRST116 path falls
through to `return !!data` with `data` null (the second branch), and a
found row yields `true`. -/
def hasProjectForRepo (r : DbSingleResult Project) : Except ServiceError Bool :=
  match r with
  | .error code _ => if code != "PGRST116" then .ok false else .ok false
  | .ok _ => .ok true

/-- `ProjectService.getProject` (src/unnamed/part_004, lines 23-39), as a
function of the select result: PGRST116 is the normal absent result;
any other storage error is raised. -/
def getProject (r : DbSingleResult Project) : Except ServiceError (Option Project) :=
  match r with
  | .error code _ =>
    if code == "PGRST116" then .ok none
    else .error (.PersistenceError "Failed to fetch project")
  | .ok p => .ok (some p)

/-- Claim C1: for a token-endpoint response whose body is parseable JSON
lacking both the `access_token` field and the `error` field,
`exchangeCodeForToken` (called with configured credentials) fails with a
`ProtocolError`; moreover no call of `exchangeCodeForToken` whatsoever
returns a token object whose `access_token` is absent or blank, so no
partial token object ever reaches the caller. -/
theorem exchange_missing_access_token_protocol_error
    (cid cs : Option String) (resp : TokenResponse) (b : TokenBody)
    (hcid : truthy cid = true) (hcs : truthy cs = true)
    (hp : resp.parsed = some b) (herr : b.error = none) (hat : b.access_token = none) :
    (∃ m, exchangeCodeForToken cid cs (.success resp) = .error (.ProtocolError m)) ∧
    ∀ (cid' cs' : Option String) (o : FetchOutcome TokenResponse) (t : TokenBody),
      exchangeCodeForToken cid' cs' o = .ok t → truthy t.access_token = true := by
  constructor
  · cases hok : resp.ok with
    | false =>
      refine ⟨"Failed to exchange code for token: " ++ toString resp.status ++ " "
        ++ resp.statusText ++ ". Response: " ++ resp.text, ?_⟩
      simp [exchangeCodeForToken, hcid, hcs, hok]
    | true =>
      refine ⟨"No access token received. Response: " ++ stringifyTokens b, ?_⟩
      simp [exchangeCodeForToken, hcid, hcs, hok, hp, herr, hat, truthy_none]
  · intro cid' cs' o t hok2
    unfold exchangeCodeForToken at hok2
    repeat' split at hok2
    all_goals simp_all

/-- Witness for the missing-access-token claim at a concrete response:
status 200, body parsed to an object with no fields at all. -/
theorem exchange_missing_access_token_protocol_error_witness :
    ∃ m, exchangeCodeForToken (some "id") (some "secret")
        (.success ⟨200, "OK", "\x7b\x7d", some ⟨none, none, none, none, none⟩⟩) =
      .error (.ProtocolError m) :=
  (exchange_missing_access_token_protocol_error (some "id") (some "secret")
    ⟨200, "OK", "\x7b\x7d", some ⟨none, none, none, none, none⟩⟩
    ⟨none, none, none, none, none⟩ rfl rfl rfl rfl rfl).1

/-- Counterexample to claim C2 as stated: with credentials configured, a
400 response whose body is parseable JSON containing an `error` field is
rejected by the status check, which runs first in the source, so the
failure is a `ProtocolError` — not, as claimed for every status, a
`ProviderError` carrying the provider's message. -/
theorem exchange_error_field_http_error_not_provider :
    exchangeCodeForToken (some "id") (some "secret")
        (.success ⟨400, "Bad Request", "x",
          some ⟨some "bad_verification_code", some "oops", none, none, none⟩⟩) =
      .error (.ProtocolError
        "Failed to exchange code for token: 400 Bad Request. Response: x") :=
  rfl

/-- Claim C2 (amended): `exchangeCodeForToken` fails with
`ConfigurationError` when the client secret is absent; with credentials
configured it fails with `ProtocolError` whenever the HTTP status is not
successful (even when the body contains an `error` field, which the
status check preempts); and when the status is successful and the parsed
body carries a truthy `error` field it fails with `ProviderError` whose
message is built from `error_description` falling back to `error`. -/
theorem exchange_error_classification (cid cs : Option String) (resp : TokenResponse) :
    (truthy cs = false →
      ∃ m, exchangeCodeForToken cid cs (.success resp) = .error (.ConfigurationError m)) ∧
    (truthy cid = true → truthy cs = true → resp.ok = false →
      ∃ m, exchangeCodeForToken cid cs (.success resp) = .error (.ProtocolError m)) ∧
    (∀ b, truthy cid = true → truthy cs = true → resp.ok = true → resp.parsed = some b →
      truthy b.error = true →
      exchangeCodeForToken cid cs (.success resp) =
        .error (.ProviderError ("GitHub OAuth error: " ++
          (if truthy b.error_description then b.error_description.getD ""
           else b.error.getD "")))) := by
  refine ⟨?_, ?_, ?_⟩
  · intro h
    refine ⟨"GitHub OAuth credentials are not configured", ?_⟩
    simp [exchangeCodeForToken, h]
  · intro h1 h2 h3
    refine ⟨"Failed to exchange code for token: " ++ toString resp.status ++ " "
      ++ resp.statusText ++ ". Response: " ++ resp.text, ?_⟩
    simp [exchangeCodeForToken, h1, h2, h3]
  · intro b h1 h2 h3 hp he
    simp [exchangeCodeForToken, h1, h2, h3, hp, he]

/-- Witness for the amended classification at a concrete provider
rejection: status 200, body with `error` set and no `error_description`,
giving the fallback message. -/
theorem exchange_error_classification_witness :
    exchangeCodeForToken (some "id") (some "secret")
        (.success ⟨200, "OK", "body", some ⟨some "bad_code", none, none, none, none⟩⟩) =
      .error (.ProviderError "GitHub OAuth error: bad_code") :=
  (exchange_error_classification (some "id") (some "secret")
      ⟨200, "OK", "body", some ⟨some "bad_code", none, none, none, none⟩⟩).2.2
    ⟨some "bad_code", none, none, none, none⟩ rfl rfl rfl rfl rfl

/-- Claim C3: the three filter passes of `filteredIssues` are independent
per-issue predicates, so applying them in a different order yields the
same final list: state then label then text (the source's order) equals
text then state then label. -/
theorem filteredIssues_order_independent (filter : String) (selectedLabels : List String)
    (searchQuery : String) (issues : List GitHubIssue) :
    textFilter searchQuery (labelFilter selectedLabels (stateFilter filter issues)) =
      labelFilter selectedLabels (stateFilter filter (textFilter searchQuery issues)) := by
  simp only [stateFilter_eq_filter, labelFilter_eq_filter, textFilter_eq_filter]
  rw [filter_comm (labelPred selectedLabels) (textPred searchQuery),
    filter_comm (statePred filter) (textPred searchQuery)]

/-- Claim C4: `filteredIssues` with empty criteria — state filter "all",
no selected labels, and a query that is blank after trimming — returns
the input collection itself (so in particular a collection with the same
id set). -/
theorem filteredIssues_empty_criteria (issues : List GitHubIssue) (searchQuery : String)
    (hq : trimStr searchQuery = "") :
    filteredIssues "all" [] searchQuery issues = issues := by
  show textFilter searchQuery (labelFilter [] (stateFilter "all" issues)) = issues
  have h1 : stateFilter "all" issues = issues := rfl
  have h2 : labelFilter [] issues = issues := rfl
  rw [h1, h2]
  unfold textFilter
  rw [hq]
  simp

/-- Witness for the empty-criteria claim on a one-element collection and
a whitespace-only query. -/
theorem filteredIssues_empty_criteria_witness :
    trimStr "  " = "" ∧
      filteredIssues "all" [] "  "
          [⟨1, 7, "Crash on launch", some "The app crashes", "open",
            [⟨"bug", "d73a4a"⟩], ⟨"octocat"⟩⟩] =
        [⟨1, 7, "Crash on launch", some "The app crashes", "open",
          [⟨"bug", "d73a4a"⟩], ⟨"octocat"⟩⟩] :=
  ⟨rfl, filteredIssues_empty_criteria _ "  " rfl⟩

/-- Claim C5: splitting the body "intro ![alt](http://x/y.png) outro"
yields exactly three segments in order: text "intro", the media url
"http://x/y.png" with alt "alt", and text "outro". -/
theorem splitBody_intro_media_outro :
    splitBodyIntoSegments (some "intro ![alt](http://x/y.png) outro") =
      [⟨.text, "intro", none⟩, ⟨.media, "http://x/y.png", some "alt"⟩,
        ⟨.text, "outro", none⟩] := by
  decide

/-- Claim C6: `validateToken` never raises — it is a total boolean
function of the probe outcome; a thrown network error yields `false`,
and the result is `true` exactly when a response arrived with a success
status. -/
theorem validateToken_never_raises (o : FetchOutcome Nat) :
    (∀ msg, o = .failure msg → validateToken o = false) ∧
    (validateToken o = true ↔ ∃ status, o = .success status ∧ statusOk status = true) := by
  constructor
  · intro msg h
    subst h
    rfl
  · cases o with
    | failure m => simp [validateToken]
    | success s => simp [validateToken]

/-- Witness: a token whose probe throws resolves to `false`. -/
theorem validateToken_never_raises_witness :
    validateToken (.failure "ECONNRESET") = false :=
  (validateToken_never_raises (.failure "ECONNRESET")).1 "ECONNRESET" rfl

/-- Claim C7: when the connection's token fails validation,
`getRepositoriesWithCache` fails with the expired-connection error, and
the result does not depend on the repository fetch at all (it is never
attempted); when the token validates, the call performs the repository
fetch and returns exactly its page. -/
theorem getRepositoriesWithCache_validation_gate (probe : FetchOutcome Nat)
    (rf rf' : ReposFetch) (h : validateToken probe = false) :
    getRepositoriesWithCache probe rf =
        .error (.ExpiredConnection
          "GitHub access token has expired. Please reconnect your account.") ∧
      getRepositoriesWithCache probe rf = getRepositoriesWithCache probe rf' ∧
      ∀ (probe2 : FetchOutcome Nat) (rf2 : ReposFetch), validateToken probe2 = true →
        getRepositoriesWithCache probe2 rf2 = getUserRepositories rf2 := by
  refine ⟨?_, ?_, ?_⟩
  · simp [getRepositoriesWithCache, h]
  · simp [getRepositoriesWithCache, h]
  · intro probe2 rf2 h2
    simp [getRepositoriesWithCache, h2]

/-- Witness: a probe that throws fails the gate, at a concrete
repository-fetch outcome. -/
theorem getRepositoriesWithCache_validation_gate_witness :
    getRepositoriesWithCache (.failure "timeout") (.response 200 "OK" []) =
      .error (.ExpiredConnection
        "GitHub access token has expired. Please reconnect your account.") :=
  (getRepositoriesWithCache_validation_gate (.failure "timeout")
    (.response 200 "OK" []) (.failure "x") rfl).1

/-- Claim C8: creating a project for a `(userId, githubRepoId)` pair the
store already holds a row for fails with the duplicate-project error and
performs no write: the store after the call is the store before it. -/
theorem createProject_duplicate_no_write (store : List Project) (userId : String)
    (pd : CreateProjectData) (genId genNow : String)
    (h : store.any (fun p => p.user_id == userId && p.github_repo_id == pd.github_repo_id)
      = true) :
    createProject store userId pd genId genNow none =
      (.error (.DuplicateProject "A project already exists for this repository"), store) := by
  simp [createProject, dbInsertProject, h]

/-- Witness: a second project for repository 42 under the same user
fails and leaves the one-row store unchanged. -/
theorem createProject_duplicate_no_write_witness :
    createProject
        [⟨"p1", "user-1", "repo", none, 42, "repo", "octo/repo", "https://x", false,
          none, none, 0, 0, none, "t0", "t0"⟩]
        "user-1"
        ⟨"repo again", none, 42, "repo", "octo/repo", "https://x", false, none, none,
          0, 0, none⟩
        "p2" "t1" none =
      (.error (.DuplicateProject "A project already exists for this repository"),
        [⟨"p1", "user-1", "repo", none, 42, "repo", "octo/repo", "https://x", false,
          none, none, 0, 0, none, "t0", "t0"⟩]) :=
  createProject_duplicate_no_write _ _ _ _ _ rfl

/-- Counterexample to claim C9 as stated: `hasProjectForRepo` applied to
a genuine storage failure (Postgres code XX000, which is not the no-rows
code PGRST116) returns the normal boolean result `false` instead of
raising the failure to its caller. -/
theorem hasProjectForRepo_swallows_storage_failure :
    hasProjectForRepo
        (dbSelectProjectByRepo [] "user-1" 42 (some ("XX000", "connection reset"))) =
      .ok false :=
  rfl

/-- Claim C9 (amended): the embedded operations other than `validateToken`
and `hasProjectForRepo` propagate storage and network failures to their
immediate caller — `getProject` raises every non-PGRST116 storage error,
`createProject` raises every injected storage failure, and
`getUserRepositories` propagates a network failure — while
`hasProjectForRepo`, like `validateToken`, coerces every failure
(including genuine, non-no-rows storage failures) into a boolean result
and never raises. -/
theorem error_propagation_policy (store : List Project) (userId : String) (repoId : Int)
    (pd : CreateProjectData) (genId genNow code msg : String)
    (hns : code ≠ "PGRST116") (hnd : code ≠ "23505") :
    hasProjectForRepo (dbSelectProjectByRepo store userId repoId (some (code, msg))) =
        .ok false ∧
      (∀ r : DbSingleResult Project, ∃ b, hasProjectForRepo r = .ok b) ∧
      getProject (.error code msg) = .error (.PersistenceError "Failed to fetch project") ∧
      createProject store userId pd genId genNow (some (code, msg)) =
        (.error (.PersistenceError "Failed to create project"), store) ∧
      (∀ m, validateToken (.failure m) = false) ∧
      (∀ m, getUserRepositories (.failure m) = .error (.NetworkError m)) := by
  refine ⟨?_, ?_, ?_, ?_, fun m => rfl, fun m => rfl⟩
  · simp [hasProjectForRepo, dbSelectProjectByRepo]
  · intro r
    cases r with
    | ok p => exact ⟨true, rfl⟩
    | error c m => exact ⟨false, by simp [hasProjectForRepo]⟩
  · simp [getProject, hns]
  · simp [createProject, dbInsertProject, hnd]

/-- Witness for the amended propagation policy at a concrete genuine
storage failure. -/
theorem error_propagation_policy_witness :
    getProject (.error "XX000" "disk failure") =
      .error (.PersistenceError "Failed to fetch project") :=
  (error_propagation_policy [] "user-1" 42
      ⟨"n", none, 42, "r", "o/r", "u", false, none, none, 0, 0, none⟩
      "p1" "t0" "XX000" "disk failure" (by decide) (by decide)).2.2.1

/-- Claim C10: the result of `filteredIssues` is a sublist of the input:
every output issue occurs in the input, in the input's relative order,
with no issue duplicated beyond its occurrences in the input; the
embedding is a pure function, so the input collection is not mutated. -/
theorem filteredIssues_sublist (filter : String) (selectedLabels : List String)
    (searchQuery : String) (issues : List GitHubIssue) :
    List.Sublist (filteredIssues filter selectedLabels searchQuery issues) issues := by
  show List.Sublist
    (textFilter searchQuery (labelFilter selectedLabels (stateFilter filter issues))) issues
  have h1 : List.Sublist
      (textFilter searchQuery (labelFilter selectedLabels (stateFilter filter issues)))
      (labelFilter selectedLabels (stateFilter filter issues)) := by
    rw [textFilter_eq_filter]
    exact List.filter_sublist _
  have h2 : List.Sublist (labelFilter selectedLabels (stateFilter filter issues))
      (stateFilter filter issues) := by
    rw [labelFilter_eq_filter]
    exact List.filter_sublist _
  have h3 : List.Sublist (stateFilter filter issues) issues := by
    rw [stateFilter_eq_filter]
    exact List.filter_sublist _
  exact (h1.trans h2).trans h3

end Pilot
